import Mathlib

/-!
Verification of the FPGA design automation loop (`automation_loop.py`).

The development shallowly embeds the pipeline's pure core:

* `strFind` — Python's `str.find(needle, start)` (least index at or after
  `start` where `needle` occurs, `none` for `-1`);
* `update_memory_scala` — the marker-based source patcher, over an explicit
  file-system model `FS` together with a trace of read/write events;
* `lut_search` / `lut_usage` / `scoreOpt` — the utilization parser
  (`re.search(r"LUT: (\d+)%", ...)`) and the score formula
  `(1 / exec_time) * (100 / lut_usage) * 1000`, with `none` standing for a
  Python `ZeroDivisionError`;
* `run_automation_loop` — the stage sequencing of the pipeline, with the
  external toolchain results supplied as inputs and the list of executed
  stages recorded.
-/

namespace AutomationLoop

/-! ## Python `str.find` -/

/-- Scan indices `i, i+1, ...` (at most `fuel` of them) for the first index
where `needle` occurs in `hay`. -/
def findFrom (hay needle : List Char) (i fuel : ℕ) : Option ℕ :=
  match fuel with
  | 0 => none
  | f + 1 => if needle.isPrefixOf (hay.drop i) then some i else findFrom hay needle (i + 1) f

/-- Python `hay.find(needle, start)`: least index `≥ start` where `needle`
occurs in `hay`, `none` when Python returns `-1`. -/
def strFind (hay needle : List Char) (start : ℕ) : Option ℕ :=
  findFrom hay needle start (hay.length + 1 - start)

theorem findFrom_some {hay needle : List Char} {i fuel j : ℕ}
    (h : findFrom hay needle i fuel = some j) :
    i ≤ j ∧ j < i + fuel ∧ needle.isPrefixOf (hay.drop j) = true ∧
      ∀ k, i ≤ k → k < j → needle.isPrefixOf (hay.drop k) = false := by
  induction fuel generalizing i with
  | zero => simp [findFrom] at h
  | succ f ih =>
    rw [findFrom] at h
    by_cases hp : needle.isPrefixOf (hay.drop i) = true
    · rw [if_pos hp] at h
      obtain rfl : i = j := Option.some_injective _ h
      exact ⟨le_refl _, by omega, hp, fun k hk1 hk2 => absurd (lt_of_le_of_lt hk1 hk2) (lt_irrefl _)⟩
    · rw [if_neg hp] at h
      obtain ⟨h1, h2, h3, h4⟩ := ih h
      refine ⟨by omega, by omega, h3, fun k hk1 hk2 => ?_⟩
      rcases Nat.eq_or_lt_of_le hk1 with rfl | hlt
      · exact Bool.eq_false_iff.mpr hp
      · exact h4 k hlt hk2

theorem findFrom_none {hay needle : List Char} {i fuel : ℕ}
    (h : findFrom hay needle i fuel = none) :
    ∀ k, i ≤ k → k < i + fuel → needle.isPrefixOf (hay.drop k) = false := by
  induction fuel generalizing i with
  | zero => intro k hk1 hk2; omega
  | succ f ih =>
    rw [findFrom] at h
    by_cases hp : needle.isPrefixOf (hay.drop i) = true
    · rw [if_pos hp] at h; exact absurd h (by simp)
    · rw [if_neg hp] at h
      intro k hk1 hk2
      rcases Nat.eq_or_lt_of_le hk1 with rfl | hlt
      · exact Bool.eq_false_iff.mpr hp
      · exact ih h k hlt (by omega)

theorem findFrom_none_of {hay needle : List Char} {i fuel : ℕ}
    (h : ∀ k, i ≤ k → k < i + fuel → needle.isPrefixOf (hay.drop k) = false) :
    findFrom hay needle i fuel = none := by
  induction fuel generalizing i with
  | zero => rfl
  | succ f ih =>
    rw [findFrom]
    rw [if_neg (by simp [h i (le_refl _) (by omega)])]
    exact ih fun k hk1 hk2 => h k (by omega) (by omega)

theorem findFrom_some_of {hay needle : List Char} {i fuel j : ℕ}
    (hij : i ≤ j) (hj : j < i + fuel) (hpre : needle.isPrefixOf (hay.drop j) = true)
    (hmin : ∀ k, i ≤ k → k < j → needle.isPrefixOf (hay.drop k) = false) :
    findFrom hay needle i fuel = some j := by
  induction fuel generalizing i with
  | zero => omega
  | succ f ih =>
    rw [findFrom]
    rcases Nat.eq_or_lt_of_le hij with rfl | hlt
    · rw [if_pos hpre]
    · rw [if_neg (by simp [hmin i (le_refl _) hlt])]
      exact ih (by omega) (by omega) fun k hk1 hk2 => hmin k (by omega) hk2

/-- A nonempty needle is never a prefix of the empty list. -/
theorem isPrefixOf_nil_eq_false {needle : List Char} (h : needle ≠ []) :
    needle.isPrefixOf ([] : List Char) = false := by
  cases needle with
  | nil => exact absurd rfl h
  | cons a l => rfl

theorem strFind_some {hay needle : List Char} {start j : ℕ}
    (h : strFind hay needle start = some j) :
    start ≤ j ∧ needle.isPrefixOf (hay.drop j) = true ∧
      ∀ k, start ≤ k → k < j → needle.isPrefixOf (hay.drop k) = false := by
  obtain ⟨h1, _, h3, h4⟩ := findFrom_some h
  exact ⟨h1, h3, h4⟩

theorem strFind_none {hay needle : List Char} {start : ℕ} (hne : needle ≠ [])
    (h : strFind hay needle start = none) :
    ∀ k, start ≤ k → needle.isPrefixOf (hay.drop k) = false := by
  intro k hk
  by_cases hlen : k < start + (hay.length + 1 - start)
  · exact findFrom_none h k hk hlen
  · have : hay.length ≤ k := by omega
    rw [List.drop_eq_nil_of_le this]
    exact isPrefixOf_nil_eq_false hne

theorem strFind_some_of {hay needle : List Char} {start j : ℕ}
    (hne : needle ≠ []) (hij : start ≤ j) (hpre : needle.isPrefixOf (hay.drop j) = true)
    (hmin : ∀ k, start ≤ k → k < j → needle.isPrefixOf (hay.drop k) = false) :
    strFind hay needle start = some j := by
  have hjlen : j ≤ hay.length := by
    by_contra hcon
    rw [List.drop_eq_nil_of_le (by omega)] at hpre
    rw [isPrefixOf_nil_eq_false hne] at hpre
    exact absurd hpre (by simp)
  exact findFrom_some_of hij (by omega) hpre hmin

theorem strFind_none_of {hay needle : List Char} {start : ℕ}
    (h : ∀ k, start ≤ k → needle.isPrefixOf (hay.drop k) = false) :
    strFind hay needle start = none :=
  findFrom_none_of fun k hk _ => h k hk

/-- If no occurrence begins in `[start, start')`, searching from `start` and from
`start'` give the same answer. -/
theorem strFind_congr {hay needle : List Char} {start start' : ℕ}
    (hne : needle ≠ []) (hle : start ≤ start')
    (hgap : ∀ k, start ≤ k → k < start' → needle.isPrefixOf (hay.drop k) = false) :
    strFind hay needle start = strFind hay needle start' := by
  cases h : strFind hay needle start' with
  | none =>
    exact strFind_none_of fun k hk => by
      by_cases hk' : start' ≤ k
      · exact strFind_none hne h k hk'
      · exact hgap k hk (by omega)
  | some j =>
    obtain ⟨h1, h2, h3⟩ := strFind_some h
    exact strFind_some_of hne (le_trans hle h1) h2 fun k hk1 hk2 => by
      by_cases hk' : start' ≤ k
      · exact h3 k hk' hk2
      · exact hgap k hk1 (by omega)

/-! ## File-system model and the source patcher -/

/-- A file system: a map from paths to file contents (`none` = file absent). -/
def FS : Type := String → Option (List Char)

/-- File-system events performed by an operation, in order. -/
inductive FsEvent where
  | read (path : String)
  | write (path : String)
deriving DecidableEq

/-- The hard-coded path patched by `update_memory_scala`. -/
def memoryScalaPath : String := "/workspace/hardware_examples/src/main/scala/cpu/Memory.scala"

/-- `start_marker = "val program = VecInit(Seq("` (line 77). -/
def start_marker : List Char := "val program = VecInit(Seq(".data

/-- `end_marker = "))"` (line 78). -/
def end_marker : List Char := "))".data

/-- The replacement region text built at line 87: leading newline-plus-indent,
the lines joined with `",\n    "`, and the closing indent before the end
marker. -/
def indentJoin (program_lines : List (List Char)) : List Char :=
  "\n    ".data ++ List.intercalate ",\n    ".data program_lines ++ "\n  ".data

/-- `update_memory_scala(program_lines)` (lines 68–92): check the path exists,
read the content, find the markers, and either fail (returning `False`, file
system unchanged) or write back the patched content.  The returned trace
records the file reads and writes performed. -/
def update_memory_scala (fs : FS) (program_lines : List (List Char)) :
    Bool × FS × List FsEvent :=
  match fs memoryScalaPath with
  | none => (false, fs, [])
  | some content =>
    match strFind content start_marker 0 with
    | none => (false, fs, [FsEvent.read memoryScalaPath])
    | some start_idx =>
      match strFind content end_marker start_idx with
      | none => (false, fs, [FsEvent.read memoryScalaPath])
      | some end_idx =>
        let new_content :=
          content.take (start_idx + start_marker.length) ++
            indentJoin program_lines ++ content.drop end_idx
        (true,
         fun p => if p = memoryScalaPath then some new_content else fs p,
         [FsEvent.read memoryScalaPath, FsEvent.write memoryScalaPath])

/-! ## Scorer -/

/-- Attempt to match the pattern `LUT: (\d+)%` at the head of `s`: the literal
`"LUT: "`, then a maximal nonempty digit run, then `%`.  Returns the parsed
integer. -/
def matchPctAt (s : List Char) : Option ℕ :=
  if "LUT: ".data.isPrefixOf s then
    let rest := s.drop 5
    let ds := rest.takeWhile Char.isDigit
    match ds, rest.drop ds.length with
    | [], _ => none
    | _ :: _, '%' :: _ => some (ds.foldl (fun n c => 10 * n + (c.toNat - 48)) 0)
    | _ :: _, _ => none
  else none

/-- `re.search(r"LUT: (\d+)%", report)` (line 164): the leftmost position where
the pattern matches, returning the captured integer. -/
def lut_search (report : List Char) : Option ℕ :=
  (List.range (report.length + 1)).findSome? (fun i => matchPctAt (report.drop i))

/-- `lut_usage = int(lut_match.group(1)) if lut_match else 100` (line 165). -/
def lut_usage (report : List Char) : ℕ :=
  (lut_search report).getD 100

/-- `score = (1.0 / exec_time) * (100.0 / lut_usage) * 1000` (line 169),
over exact rationals; `none` models a Python `ZeroDivisionError` (raised when
`exec_time` or `lut_usage` is zero). -/
def scoreOpt (exec_time : ℚ) (report : List Char) : Option ℚ :=
  if exec_time = 0 ∨ lut_usage report = 0 then none
  else some ((1 / exec_time) * (100 / (lut_usage report : ℚ)) * 1000)

/-! ## The pipeline -/

/-- The benchmark program injected by the loop (lines 45–66). -/
def MATMUL_PROGRAM : List (List Char) :=
  ["\"h200001B7\".U(32.W)".data,
   "\"h00A00093\".U(32.W)".data,
   "\"h01400113\".U(32.W)".data,
   "\"h06400293\".U(32.W)".data,
   "\"h00208233\".U(32.W)".data,
   "\"hFFF28293\".U(32.W)".data,
   "\"hFE029CE3\".U(32.W)".data,
   "\"h0041A303\".U(32.W)".data,
   "\"h00237313\".U(32.W)".data,
   "\"hFE030CE3\".U(32.W)".data,
   "\"h04400393\".U(32.W)".data,
   "\"h0071A023\".U(32.W)".data,
   "\"h0000006F\".U(32.W)".data]

/-- The pipeline stages, in the order `run_automation_loop` performs them. -/
inductive Stage where
  | patch
  | build
  | synth
  | flash
  | uart
  | score
deriving DecidableEq

/-- The result of a build process that could be started: its exit code and
captured output (`subprocess.run`, lines 106–112). -/
structure BuildResult where
  returncode : Int
  stdout : List Char
  stderr : List Char
deriving DecidableEq

/-- How a pipeline run ends. -/
inductive RunOutcome where
  /-- `update_memory_scala` returned `False` and the loop returned (line 100). -/
  | patchFailed
  /-- `subprocess.run` raised: the build tool could not be started (line 124). -/
  | buildError
  /-- the score computation raised `ZeroDivisionError` (line 169). -/
  | scoreError
  /-- the run completed with this design score (line 169). -/
  | scored (s : ℚ)
deriving DecidableEq

/-- `run_automation_loop()` (lines 94–177).  External effects are inputs:
`buildRes` is `none` when `subprocess.run` raises (the except branch) and
`some r` when the build process ran to an exit code; `exec_time` is the wall
time measured around the mocked UART wait; `util_report` is the text returned
by `analyze_design("utilization")`.  Returns the outcome, the final file
system, and the stages executed, in order.  Note lines 113–121: a non-zero
`returncode` only prints `"Build Failed!"` and the captured output — the
function does not return, and the loop continues with synthesis. -/
def run_automation_loop (fs : FS) (buildRes : Option BuildResult)
    (exec_time : ℚ) (util_report : List Char) : RunOutcome × FS × List Stage :=
  let p := update_memory_scala fs MATMUL_PROGRAM
  if p.1 = false then (RunOutcome.patchFailed, p.2.1, [Stage.patch])
  else
    match buildRes with
    | none => (RunOutcome.buildError, p.2.1, [Stage.patch, Stage.build])
    | some _ =>
      match scoreOpt exec_time util_report with
      | none => (RunOutcome.scoreError, p.2.1,
          [Stage.patch, Stage.build, Stage.synth, Stage.flash, Stage.uart, Stage.score])
      | some s => (RunOutcome.scored s, p.2.1,
          [Stage.patch, Stage.build, Stage.synth, Stage.flash, Stage.uart, Stage.score])

/-! ## Spec-modelled completion monitor

The completion monitor in `automation_loop.py` is a mock: lines 139–155
`time.sleep(1.234)` with the real serial read left in a comment, so there is
no channel, sentinel or timeout in the source.  The definitions below model
the Completion Monitor contract from the specification. -/

/-- Modelled from the spec: `waitForCompletion(channel, sentinelByte, timeout)`
is absent from the source (mocked by a fixed sleep).  `channel i` is the byte
sampled at poll `i`; the monitor polls until the sentinel byte is observed,
for at most `timeout` polls, returning the poll index at which the sentinel
was first seen, or `none` for `CompletionTimeout`. -/
def waitForCompletion (channel : ℕ → ℕ) (sentinelByte timeout : ℕ) : Option ℕ :=
  (List.range timeout).find? (fun i => decide (channel i = sentinelByte))

/-- A run outcome for the spec-modelled pipeline with a real completion
monitor: either an outcome of the source pipeline, or `CompletionTimeout`. -/
inductive MonitorOutcome where
  | completionTimeout
  | fromLoop (o : RunOutcome)
deriving DecidableEq

/-- Modelled from the spec: the pipeline with the mocked UART wait replaced by
`waitForCompletion`; on `CompletionTimeout` the run is treated as failed and
no score stage executes.  `elapsedAt i` is the wall-clock time measured when
the sentinel is observed at poll `i`. -/
def run_with_monitor (fs : FS) (buildRes : Option BuildResult)
    (channel : ℕ → ℕ) (sentinelByte timeout : ℕ) (elapsedAt : ℕ → ℚ)
    (util_report : List Char) : MonitorOutcome × List Stage :=
  let p := update_memory_scala fs MATMUL_PROGRAM
  if p.1 = false then (MonitorOutcome.fromLoop RunOutcome.patchFailed, [Stage.patch])
  else
    match buildRes with
    | none => (MonitorOutcome.fromLoop RunOutcome.buildError, [Stage.patch, Stage.build])
    | some _ =>
      match waitForCompletion channel sentinelByte timeout with
      | none => (MonitorOutcome.completionTimeout,
          [Stage.patch, Stage.build, Stage.synth, Stage.flash, Stage.uart])
      | some i =>
        match scoreOpt (elapsedAt i) util_report with
        | none => (MonitorOutcome.fromLoop RunOutcome.scoreError,
            [Stage.patch, Stage.build, Stage.synth, Stage.flash, Stage.uart, Stage.score])
        | some s => (MonitorOutcome.fromLoop (RunOutcome.scored s),
            [Stage.patch, Stage.build, Stage.synth, Stage.flash, Stage.uart, Stage.score])

/-! ## Concrete fixtures -/

/-- A small `Memory.scala` content containing the marker span. -/
def demoContent : List Char :=
  "class Memory \x7b\n  val program = VecInit(Seq(\n    \"h00000013\".U(32.W)\n  ))\n\x7d\n".data

/-- A file system whose only file is the patch target, holding `demoContent`. -/
def demoFs : FS :=
  fun p => if p = memoryScalaPath then some demoContent else none

/-- A file system whose target file holds no program-definition markers. -/
def noMarkerFs : FS :=
  fun p => if p = memoryScalaPath then some "object Memory".data else none

/-- The empty file system: no file exists. -/
def emptyFs : FS := fun _ => none

/-! ## Helper lemmas about the markers -/

theorem isPrefixOf_cons_cons (a b : Char) (l₁ l₂ : List Char) :
    (a :: l₁).isPrefixOf (b :: l₂) = (a == b && l₁.isPrefixOf l₂) := rfl

/-- The end marker `"))"` is not a prefix of any list whose head is not `')'`. -/
theorem end_marker_not_prefix {l t : List Char}
    (hne : l ≠ []) (hhead : l.head? ≠ some ')') :
    end_marker.isPrefixOf (l ++ t) = false := by
  cases l with
  | nil => exact absurd rfl hne
  | cons c rest =>
    have hc : c ≠ ')' := fun h => hhead (by rw [h]; rfl)
    show ((')' : Char) :: [')']).isPrefixOf (c :: (rest ++ t)) = false
    rw [isPrefixOf_cons_cons]
    rw [beq_eq_false_iff_ne.mpr (Ne.symm hc)]
    rfl

/-- No character of the start marker is `')'`. -/
theorem start_marker_no_paren :
    ∀ m, m < start_marker.length → (start_marker.drop m).head? ≠ some ')' := by
  decide

/-- The end marker cannot occur at any position inside the start marker's
occurrence at `si`. -/
theorem no_end_marker_in_start {content : List Char} {si : ℕ}
    (hs : start_marker.isPrefixOf (content.drop si) = true) :
    ∀ k, si ≤ k → k < si + start_marker.length →
      end_marker.isPrefixOf (content.drop k) = false := by
  intro k hk1 hk2
  obtain ⟨t, ht⟩ := List.isPrefixOf_iff_prefix.mp hs
  have hdrop : content.drop k = start_marker.drop (k - si) ++ t := by
    have h1 : content.drop k = (content.drop si).drop (k - si) := by
      rw [List.drop_drop]
      congr 1
      omega
    have hm : k - si - start_marker.length = 0 := by omega
    rw [h1, ← ht, List.drop_append_eq_append_drop, hm, List.drop_zero]
  rw [hdrop]
  refine end_marker_not_prefix (fun hnil => ?_) (start_marker_no_paren (k - si) (by omega))
  have := congrArg List.length hnil
  rw [List.length_drop] at this
  simp only [List.length_nil] at this
  omega

/-! ## Claims about the source patcher -/

/-- C1: when the target file's content lacks the start marker, or lacks the
end marker, `update_memory_scala` returns `False`, the file system is
byte-for-byte unchanged, and no write event is performed. -/
theorem c1_fail_no_write (fs : FS) (R : List (List Char)) (content : List Char)
    (hfile : fs memoryScalaPath = some content)
    (hmiss : strFind content start_marker 0 = none ∨ strFind content end_marker 0 = none) :
    (update_memory_scala fs R).1 = false ∧
    (update_memory_scala fs R).2.1 = fs ∧
    FsEvent.write memoryScalaPath ∉ (update_memory_scala fs R).2.2 := by
  rcases hmiss with hmiss | hmiss
  · simp only [update_memory_scala, hfile, hmiss]
    exact ⟨trivial, trivial, by simp⟩
  · cases hstart : strFind content start_marker 0 with
    | none =>
      simp only [update_memory_scala, hfile, hstart]
      exact ⟨trivial, trivial, by simp⟩
    | some si =>
      have hend : strFind content end_marker si = none :=
        strFind_none_of fun k _ => strFind_none (by decide) hmiss k (Nat.zero_le k)
      simp only [update_memory_scala, hfile, hstart, hend]
      exact ⟨trivial, trivial, by simp⟩

/-- Witness for C1 at a concrete file without the start marker. -/
theorem c1_fail_no_write_witness :
    (update_memory_scala noMarkerFs MATMUL_PROGRAM).1 = false ∧
    (update_memory_scala noMarkerFs MATMUL_PROGRAM).2.1 = noMarkerFs ∧
    FsEvent.write memoryScalaPath ∉ (update_memory_scala noMarkerFs MATMUL_PROGRAM).2.2 :=
  c1_fail_no_write noMarkerFs MATMUL_PROGRAM "object Memory".data rfl (Or.inl (by decide))

/-- C6: a successful patch writes back exactly the original prefix up to and
including the start marker, then the joined-and-indented replacement lines,
then the original content from the end marker onward. -/
theorem c6_patch_frame (fs : FS) (R : List (List Char)) (content : List Char) (si ei : ℕ)
    (hfile : fs memoryScalaPath = some content)
    (hs : strFind content start_marker 0 = some si)
    (he : strFind content end_marker si = some ei) :
    (update_memory_scala fs R).1 = true ∧
    (update_memory_scala fs R).2.1 memoryScalaPath
      = some (content.take (si + start_marker.length) ++ indentJoin R ++ content.drop ei) ∧
    content.take (si + start_marker.length) = content.take si ++ start_marker ∧
    end_marker.isPrefixOf (content.drop ei) = true := by
  have htake : content.take (si + start_marker.length) = content.take si ++ start_marker := by
    obtain ⟨t, ht⟩ := List.isPrefixOf_iff_prefix.mp (strFind_some hs).2.1
    rw [List.take_add, ← ht, List.take_append_eq_append_take, List.take_length,
      Nat.sub_self, List.take_zero, List.append_nil]
  simp only [update_memory_scala, hfile, hs, he]
  exact ⟨trivial, by simp, htake, (strFind_some he).2.1⟩

/-- Witness for C6 on the concrete fixture (markers at 17 and 70). -/
theorem c6_patch_frame_witness :
    (update_memory_scala demoFs MATMUL_PROGRAM).1 = true ∧
    (update_memory_scala demoFs MATMUL_PROGRAM).2.1 memoryScalaPath
      = some (demoContent.take (17 + start_marker.length) ++ indentJoin MATMUL_PROGRAM ++
          demoContent.drop 70) ∧
    demoContent.take (17 + start_marker.length) = demoContent.take 17 ++ start_marker ∧
    end_marker.isPrefixOf (demoContent.drop 70) = true :=
  c6_patch_frame demoFs MATMUL_PROGRAM demoContent 17 70 rfl (by decide) (by decide)

/-- C7: the end-marker search from the start marker's position agrees with the
search from the position immediately after the start marker (the start marker
contains no `')'`, so no end-marker occurrence can begin inside it), and the
patch fails exactly when no end-marker occurrence begins at or after that
position. -/
theorem c7_end_search (fs : FS) (R : List (List Char)) (content : List Char) (si : ℕ)
    (hfile : fs memoryScalaPath = some content)
    (hs : strFind content start_marker 0 = some si) :
    strFind content end_marker si
      = strFind content end_marker (si + start_marker.length) ∧
    ((update_memory_scala fs R).1 = false ↔
      strFind content end_marker (si + start_marker.length) = none) := by
  have hgap := no_end_marker_in_start (strFind_some hs).2.1
  have heq := strFind_congr (show end_marker ≠ [] by decide) (Nat.le_add_right si _) hgap
  refine ⟨heq, ?_⟩
  simp only [update_memory_scala, hfile, hs, heq]
  cases h : strFind content end_marker (si + start_marker.length) with
  | none => simp
  | some ei => simp

/-- Witness for C7 on the concrete fixture (start marker at 17). -/
theorem c7_end_search_witness :
    strFind demoContent end_marker 17
      = strFind demoContent end_marker (17 + start_marker.length) ∧
    ((update_memory_scala demoFs MATMUL_PROGRAM).1 = false ↔
      strFind demoContent end_marker (17 + start_marker.length) = none) :=
  c7_end_search demoFs MATMUL_PROGRAM demoContent 17 rfl (by decide)

/-- C10: when the target path does not exist, `update_memory_scala` returns
`False` with the file system unchanged and an empty event trace — no file is
read, written or created, and the function returns normally. -/
theorem c10_missing_target (fs : FS) (R : List (List Char))
    (hmiss : fs memoryScalaPath = none) :
    update_memory_scala fs R = (false, fs, []) := by
  simp only [update_memory_scala, hmiss]

/-- Witness for C10 on the empty file system. -/
theorem c10_missing_target_witness :
    update_memory_scala emptyFs MATMUL_PROGRAM = (false, emptyFs, []) :=
  c10_missing_target emptyFs MATMUL_PROGRAM rfl

/-! ## Claims about the scorer -/

/-- C3: for a strictly positive elapsed time and a report whose parsed
utilization percent `u` lies in `(0, 100]`, the score is exactly
`(1 / exec_time) * (100 / u) * 1000`. -/
theorem c3_score_formula (t : ℚ) (r : List Char) (u : ℕ)
    (ht : 0 < t) (hu : lut_search r = some u) (hu0 : 0 < u) (_hu100 : u ≤ 100) :
    scoreOpt t r = some ((1 / t) * (100 / (u : ℚ)) * 1000) := by
  have husage : lut_usage r = u := by rw [lut_usage, hu]; rfl
  rw [scoreOpt, husage, if_neg (by push_neg; exact ⟨ne_of_gt ht, by omega⟩)]

/-- Witness for C3: `score(1.0, "LUT: 50%") = 2000` and
`score(2.0, "LUT: 25%") = 2000`. -/
theorem c3_score_formula_witness :
    0 < (1 : ℚ) ∧ lut_search ("LUT: 50%".data) = some 50 ∧
    scoreOpt 1 ("LUT: 50%".data) = some 2000 ∧
    scoreOpt 2 ("LUT: 25%".data) = some 2000 :=
  ⟨by norm_num, by decide,
   by rw [c3_score_formula 1 ("LUT: 50%".data) 50 (by norm_num) (by decide)
        (by norm_num) (by norm_num)]; norm_num,
   by rw [c3_score_formula 2 ("LUT: 25%".data) 25 (by norm_num) (by decide)
        (by norm_num) (by norm_num)]; norm_num⟩

/-- C4 counterexample: `"LUT: 0%"` parses to `0`, and the scorer does not
clamp it — the division by zero raises (modelled as `none`), so no score
value is produced, contrary to the claimed clamp-to-1 behaviour. -/
theorem c4_counterexample :
    lut_search ("LUT: 0%".data) = some 0 ∧
    scoreOpt 1 ("LUT: 0%".data) = none ∧
    scoreOpt 1 ("LUT: 0%".data) ≠ some ((1 / 1) * (100 / 1) * 1000) := by
  refine ⟨by decide, by decide, by decide⟩

/-- C4 amended: a report whose parsed utilization percent is exactly `0` is
used unclamped, so the score computation raises a division-by-zero error
(modelled as `none`) and produces no score. -/
theorem c4_zero_division (t : ℚ) (r : List Char)
    (hu : lut_search r = some 0) :
    scoreOpt t r = none := by
  have husage : lut_usage r = 0 := by rw [lut_usage, hu]; rfl
  rw [scoreOpt, if_pos (Or.inr husage)]

/-- Witness for the amended C4 at `"LUT: 0%"`. -/
theorem c4_zero_division_witness :
    lut_search ("LUT: 0%".data) = some 0 ∧ scoreOpt 1 ("LUT: 0%".data) = none :=
  ⟨by decide, c4_zero_division 1 ("LUT: 0%".data) (by decide)⟩

/-- C5: a report in which the `LUT` percentage pattern does not occur is
scored with the default `100`, and yields the same score as a report stating
exactly `100%`, for every elapsed time. -/
theorem c5_missing_key_default (t : ℚ) (r : List Char)
    (hmiss : lut_search r = none) :
    lut_usage r = 100 ∧ scoreOpt t r = scoreOpt t ("LUT: 100%".data) := by
  have h1 : lut_usage r = 100 := by rw [lut_usage, hmiss]; rfl
  have h2 : lut_usage ("LUT: 100%".data) = 100 := by decide
  refine ⟨h1, ?_⟩
  rw [scoreOpt, scoreOpt, h1, h2]

/-- Witness for C5 at a report carrying only an `FF` percentage. -/
theorem c5_missing_key_default_witness :
    lut_search ("FF: 30%".data) = none ∧
    lut_usage ("FF: 30%".data) = 100 ∧
    scoreOpt 1 ("FF: 30%".data) = scoreOpt 1 ("LUT: 100%".data) :=
  ⟨by decide, (c5_missing_key_default 1 ("FF: 30%".data) (by decide)).1,
   (c5_missing_key_default 1 ("FF: 30%".data) (by decide)).2⟩

/-- C8 counterexample: the report `"LUT:45%"` (no space after the colon) does
not match the pattern, so the parse falls back to the default `100` instead of
yielding `45` as the claim states. -/
theorem c8_counterexample :
    lut_search ("LUT:45%".data) = none ∧
    lut_usage ("LUT:45%".data) = 100 ∧
    lut_search ("LUT:45%".data) ≠ some 45 := by
  refine ⟨by decide, by decide, by decide⟩

/-- C8 amended: the pattern is the key name, a colon, a single mandatory
space, an integer and a percent sign — `"LUT: 45%"` parses to `45`, while
`"LUT:45%"` (no space) and `"LUT:  45%"` (two spaces) do not match and fall
back to the default `100`. -/
theorem c8_mandatory_space :
    lut_search ("LUT: 45%".data) = some 45 ∧
    lut_search ("LUT:45%".data) = none ∧ lut_usage ("LUT:45%".data) = 100 ∧
    lut_search ("LUT:  45%".data) = none ∧ lut_usage ("LUT:  45%".data) = 100 := by
  refine ⟨by decide, by decide, by decide, by decide, by decide⟩

/-! ## Claims about the pipeline -/

/-- C2 counterexample: with the fixture file, a build result with non-zero
exit code `1`, elapsed time `1` and report `"LUT: 45%"`, the pipeline still
executes the synthesize, flash, UART-wait and score stages and emits the
score `(1/1) * (100/45) * 1000 = 20000/9` — it does not abort after the
failed build. -/
theorem c2_counterexample :
    (run_automation_loop demoFs (some ⟨1, [], []⟩) 1 ("LUT: 45%".data)).2.2
      = [Stage.patch, Stage.build, Stage.synth, Stage.flash, Stage.uart, Stage.score] ∧
    Stage.synth ∈ (run_automation_loop demoFs (some ⟨1, [], []⟩) 1 ("LUT: 45%".data)).2.2 ∧
    (run_automation_loop demoFs (some ⟨1, [], []⟩) 1 ("LUT: 45%".data)).1
      = RunOutcome.scored (20000 / 9) := by
  have hpatch : ¬ ((update_memory_scala demoFs MATMUL_PROGRAM).1 = false) := by decide
  have hlut : lut_usage ("LUT: 45%".data) = 45 := by decide
  have hscore : scoreOpt 1 ("LUT: 45%".data) = some (20000 / 9) := by
    rw [scoreOpt, hlut, if_neg (by norm_num)]
    norm_num
  refine ⟨?_, ?_, ?_⟩ <;> simp [run_automation_loop, hscore, if_neg hpatch]

/-- C2 amended: a build that completes with an exit code — zero or not — is
reported but never aborts the run: whenever the patch succeeded and the score
computation is defined, the pipeline continues through synthesize, flash, the
completion wait and score.  Only a failure to start the build process
(`buildRes = none`, the except branch) aborts before the toolchain stages. -/
theorem c2_build_failure_continues (fs : FS) (br : BuildResult) (t : ℚ)
    (r : List Char) (s : ℚ)
    (hpatch : (update_memory_scala fs MATMUL_PROGRAM).1 = true)
    (hscore : scoreOpt t r = some s) :
    (run_automation_loop fs (some br) t r).1 = RunOutcome.scored s ∧
    (run_automation_loop fs (some br) t r).2.2
      = [Stage.patch, Stage.build, Stage.synth, Stage.flash, Stage.uart, Stage.score] ∧
    (run_automation_loop fs none t r).2.2 = [Stage.patch, Stage.build] := by
  have hne : ¬ ((update_memory_scala fs MATMUL_PROGRAM).1 = false) := by
    simp [hpatch]
  refine ⟨?_, ?_, ?_⟩ <;>
    simp [run_automation_loop, hscore, if_neg hne]

/-- Witness for the amended C2 at a non-zero exit code. -/
theorem c2_build_failure_continues_witness :
    (run_automation_loop demoFs (some ⟨1, [], []⟩) 1 ("LUT: 45%".data)).1
      = RunOutcome.scored (20000 / 9) ∧
    (run_automation_loop demoFs (some ⟨1, [], []⟩) 1 ("LUT: 45%".data)).2.2
      = [Stage.patch, Stage.build, Stage.synth, Stage.flash, Stage.uart, Stage.score] ∧
    (run_automation_loop demoFs none 1 ("LUT: 45%".data)).2.2 = [Stage.patch, Stage.build] :=
  c2_build_failure_continues demoFs ⟨1, [], []⟩ 1 ("LUT: 45%".data) (20000 / 9)
    (by decide)
    (by rw [scoreOpt, show lut_usage ("LUT: 45%".data) = 45 from by decide,
          if_neg (by norm_num)]
        norm_num)

/-- C9 (spec-modelled): if the sentinel byte is never observed on the channel
within the timeout, the completion monitor fails with `CompletionTimeout`, the
run is treated as failed, and the score stage never executes. -/
theorem c9_timeout_no_score (fs : FS) (br : BuildResult) (channel : ℕ → ℕ)
    (sentinelByte timeout : ℕ) (elapsedAt : ℕ → ℚ) (r : List Char)
    (hpatch : (update_memory_scala fs MATMUL_PROGRAM).1 = true)
    (hnever : ∀ i, i < timeout → channel i ≠ sentinelByte) :
    (run_with_monitor fs (some br) channel sentinelByte timeout elapsedAt r).1
      = MonitorOutcome.completionTimeout ∧
    Stage.score ∉ (run_with_monitor fs (some br) channel sentinelByte timeout elapsedAt r).2 := by
  have hne : ¬ ((update_memory_scala fs MATMUL_PROGRAM).1 = false) := by
    simp [hpatch]
  have hwait : waitForCompletion channel sentinelByte timeout = none := by
    rw [waitForCompletion, List.find?_eq_none]
    intro i hi
    simp only [decide_eq_true_eq]
    exact hnever i (List.mem_range.mp hi)
  constructor <;>
    simp [run_with_monitor, if_neg hne, hwait]

/-- Witness for C9: a channel that always reads `0` never delivers the
sentinel `68` within `5` polls. -/
theorem c9_timeout_no_score_witness :
    (run_with_monitor demoFs (some ⟨0, [], []⟩) (fun _ => 0) 68 5 (fun _ => 1)
        ("LUT: 45%".data)).1 = MonitorOutcome.completionTimeout ∧
    Stage.score ∉ (run_with_monitor demoFs (some ⟨0, [], []⟩) (fun _ => 0) 68 5 (fun _ => 1)
        ("LUT: 45%".data)).2 :=
  c9_timeout_no_score demoFs ⟨0, [], []⟩ (fun _ => 0) 68 5 (fun _ => 1)
    ("LUT: 45%".data) (by decide) (fun i _ => by simp)

end AutomationLoop
